import Mathlib

/-!
Shallow embedding of `scripts/plot_results.py`: the loader of calibration
CSV tables, the derived metrics (efficiency, overhead, optimal operating
point), the data consumed by the three chart functions, and the text
report writer.  Real numbers of the Python program (numpy/pandas floats)
are modelled by rationals; the IEEE special values produced by division by
zero are modelled explicitly by the `PdVal` type, since pandas division
never raises but yields `inf`/`-inf`/`nan`.
-/

set_option maxRecDepth 100000

namespace MangoPlot

/-- Result of a pandas float operation: either a finite value (modelled as a
rational) or one of the IEEE special values that numpy produces on division
by zero instead of raising. -/
inductive PdVal where
  | num (q : ℚ)
  | inf
  | ninf
  | nan
deriving DecidableEq, Repr

/-- Pandas/numpy elementwise division `a / b`: finite quotient when `b ≠ 0`,
otherwise `inf`, `-inf` or `nan` according to the sign of the numerator
(numpy emits a warning but does not raise). -/
def pdDiv (a b : ℚ) : PdVal :=
  if b = 0 then
    if 0 < a then PdVal.inf else if a < 0 then PdVal.ninf else PdVal.nan
  else PdVal.num (a / b)

/-- Multiplication by the positive literal `100` as it appears in the
overhead formula `... * 100`. -/
def pdMul100 : PdVal → PdVal
  | PdVal.num q => PdVal.num (q * 100)
  | PdVal.inf => PdVal.inf
  | PdVal.ninf => PdVal.ninf
  | PdVal.nan => PdVal.nan

/-- One observation row of a calibration CSV: columns `N`, `R_min`,
`success_rate` (see the header of the result files). -/
structure Row where
  N : ℚ
  R_min : ℚ
  success_rate : ℚ
deriving DecidableEq, Repr

/-- A loaded dataframe: the three CSV columns as rows, plus any extra
columns added in place later (`df['efficiency'] = ...`). -/
structure Table where
  rows : List Row
  extra : List (String × List PdVal)
deriving DecidableEq, Repr

/-- The dict built by `load_calibration_data`: failure probability `B`
mapped to its table, in insertion order.  Python dict keys are unique. -/
abbrev ResultSet := List (ℚ × Table)

/-- Dict lookup `data[b]` / `data.get(b)`: first entry with the key. -/
def lookupT (k : ℚ) : ResultSet → Option Table
  | [] => none
  | p :: rest => if p.1 = k then some p.2 else lookupT k rest

/-- Dict assignment `data[b] = df`: replace the value at an existing key in
place (Python dicts keep the original position), else append. -/
def upsert (k : ℚ) (t : Table) : ResultSet → ResultSet
  | [] => [(k, t)]
  | p :: rest => if p.1 = k then (k, t) :: rest else p :: upsert k t rest

/-- `df[df['N'] == n] ... .values[0]`: first row of a table whose `N`
column equals `n`. -/
def lookupN (n : ℚ) : List Row → Option Row
  | [] => none
  | r :: rs => if r.N = n then some r else lookupN n rs

/-- The efficiency column `df['N'] / df['R_min']` computed in
`plot_cost_effectiveness` (line 102): an elementwise pandas division over
every row of the table, with no filtering. -/
def effCol (t : Table) : List PdVal :=
  t.rows.map (fun r => pdDiv r.N r.R_min)

/-- Finite efficiency of one row, used to state recomputation claims. -/
def effQ (r : Row) : ℚ := r.N / r.R_min

/-- The overhead loop of `plot_redundancy_analysis` (lines 197-206): for
each row of the comparison table, look up the first baseline row with the
same `N`; when found, append `(N, (r_with_b - r_baseline) / r_baseline * 100)`,
otherwise skip the row. -/
def overheadLoop (base : List Row) : List Row → List (ℚ × PdVal)
  | [] => []
  | r :: rs =>
    match lookupN r.N base with
    | some rb => (r.N, pdMul100 (pdDiv (r.R_min - rb.R_min) rb.R_min)) :: overheadLoop base rs
    | none => overheadLoop base rs

/-- `sorted(data.items())`: key comparison on the dict pairs. -/
def keyLe (p q : ℚ × Table) : Prop := p.1 ≤ q.1

instance : DecidableRel keyLe := fun p q => inferInstanceAs (Decidable (p.1 ≤ q.1))

instance : IsTotal (ℚ × Table) keyLe := ⟨fun p q => le_total p.1 q.1⟩

instance : IsTrans (ℚ × Table) keyLe := ⟨fun _ _ _ h h' => le_trans h h'⟩

/-- Strict version of the key order (keys of a dict are unique, so the
sorted items are strictly ascending). -/
def keyLt (p q : ℚ × Table) : Prop := p.1 < q.1

instance : IsAntisymm (ℚ × Table) keyLt :=
  ⟨fun _ _ h h' => absurd h' (lt_asymm h)⟩

/-- `sorted(data.items())` (Python `sorted` restricted to the keys, which
are unique in a dict). -/
def sortByKey (data : ResultSet) : ResultSet := List.insertionSort keyLe data

/-- `sorted(data.keys())`. -/
def sortKeys (data : ResultSet) : List ℚ :=
  List.insertionSort (· ≤ ·) (data.map Prod.fst)

/-- `min` of a pandas column: `nan` (here: `none`) on an empty column. -/
def colMin : List ℚ → Option ℚ
  | [] => none
  | x :: xs => some (xs.foldl min x)

/-- `max` of a pandas column: `nan` (here: `none`) on an empty column. -/
def colMax : List ℚ → Option ℚ
  | [] => none
  | x :: xs => some (xs.foldl max x)

/-- Mean of a plain rational column (no special values involved). -/
def meanQ (xs : List ℚ) : ℚ := xs.sum / xs.length

/-- Pandas `Series.mean()` with `skipna=True` over possibly-special values:
`nan` entries are dropped; a surviving `inf` (resp. `-inf`) dominates the
sum; both together, or an empty column, give `nan`. -/
def pdMean (xs : List PdVal) : PdVal :=
  let xs' := xs.filter (fun v => decide (v ≠ PdVal.nan))
  if xs'.contains PdVal.inf ∧ xs'.contains PdVal.ninf then PdVal.nan
  else if xs'.contains PdVal.inf then PdVal.inf
  else if xs'.contains PdVal.ninf then PdVal.ninf
  else if xs'.isEmpty then PdVal.nan
  else PdVal.num (meanQ (xs'.filterMap (fun v => match v with
    | PdVal.num q => some q
    | _ => none)))

/-! ### Loader: `load_calibration_data` -/

/-- The fixed filename piece `"r_vs_n_B"` of the glob `r_vs_n_B*.csv`. -/
def patHead : List Char := "r_vs_n_B".data

/-- The fixed filename piece `".csv"` of the glob `r_vs_n_B*.csv`. -/
def patTail : List Char := ".csv".data

/-- `glob.glob(os.path.join(results_dir, "r_vs_n_B*.csv"))` membership for a
basename in the directory: the name starts with the first fixed piece, ends
with the second, and is long enough that the two pieces do not overlap
(`*` matches the possibly-empty middle). -/
def matchesPat (name : String) : Bool :=
  patHead.isPrefixOf name.data && patTail.isSuffixOf name.data
    && decide (patHead.length + patTail.length ≤ name.data.length)

/-- Scanner for `delOcc`, structurally recursive on a fuel argument so the
kernel can evaluate it; every step consumes at least one character, so fuel
equal to the list length never runs out. -/
def delOccGo (pat : List Char) : Nat → List Char → List Char
  | _, [] => []
  | 0, l => l
  | fuel + 1, c :: cs =>
    if pat.isPrefixOf (c :: cs) then delOccGo pat fuel (cs.drop (pat.length - 1))
    else c :: delOccGo pat fuel cs

/-- Python `s.replace(old, "")` for a non-empty `old`: delete every
non-overlapping occurrence of `old`, scanning left to right. -/
def delOcc (pat : List Char) (l : List Char) : List Char :=
  delOccGo pat l.length l

/-- Digit list to natural number value. -/
def digitsVal (cs : List Char) : Nat :=
  cs.foldl (fun a c => a * 10 + (c.toNat - 48)) 0

/-- Leading decimal digits of a character list, and the remainder. -/
def decDigits (cs : List Char) : List Char × List Char :=
  (cs.takeWhile Char.isDigit, cs.dropWhile Char.isDigit)

/-- Mantissa of a Python float literal: `digits`, `digits.`, `digits.digits`
or `.digits`; returns its rational value and the unconsumed remainder. -/
def parseMantissa (cs : List Char) : Option (ℚ × List Char) :=
  let ip := (decDigits cs).1
  let r1 := (decDigits cs).2
  match r1 with
  | '.' :: r2 =>
    let fp := (decDigits r2).1
    let r3 := (decDigits r2).2
    if ip.isEmpty && fp.isEmpty then none
    else some ((digitsVal ip : ℚ) + (digitsVal fp : ℚ) / ((10 : ℚ) ^ fp.length), r3)
  | _ => if ip.isEmpty then none else some ((digitsVal ip : ℚ), r1)

/-- Python's builtin `float()` on the decimal-literal fragment of its
grammar: optional sign, mantissa, optional `e`/`E` exponent.  (The builtin
additionally accepts surrounding whitespace, `_` digit separators and the
`inf`/`nan` words; those inputs never arise from the claims considered
here, and on every other input this parser fails exactly when `float()`
raises `ValueError`.) -/
def parsePyFloat (s : String) : Option ℚ :=
  let signed : Bool × List Char :=
    match s.data with
    | '-' :: r => (true, r)
    | '+' :: r => (false, r)
    | cs => (false, cs)
  match parseMantissa signed.2 with
  | none => none
  | some (m, rest) =>
    let v : ℚ := if signed.1 then -m else m
    match rest with
    | [] => some v
    | e :: r =>
      if e = 'e' ∨ e = 'E' then
        let esigned : Bool × List Char :=
          match r with
          | '-' :: r2 => (true, r2)
          | '+' :: r2 => (false, r2)
          | cs => (false, cs)
        let ds := (decDigits esigned.2).1
        let r2 := (decDigits esigned.2).2
        if ds.isEmpty ∨ ¬ r2.isEmpty then none
        else some (if esigned.1 then v / ((10 : ℚ) ^ digitsVal ds)
                   else v * ((10 : ℚ) ^ digitsVal ds))
      else none

/-- The decoding the code applies to a matched filename (lines 30-31):
`filename.replace("r_vs_n_B", "").replace(".csv", "")` — note it deletes
every occurrence of the two fixed pieces, not just the outermost ones —
followed by `float(...)`. -/
def decodeB (name : String) : Option ℚ :=
  parsePyFloat (String.mk (delOcc patTail (delOcc patHead name.data)))

/-- Modelled from the spec's words (for comparison with `decodeB`): "extract
the numeric substring between a fixed prefix and suffix", i.e. decode the
float from the single middle segment of a matching filename. -/
def segDecode (name : String) : Option ℚ :=
  if matchesPat name then
    parsePyFloat (String.mk
      ((name.data.drop patHead.length).take (name.data.length - (patHead.length + patTail.length))))
  else none

/-- Python string `<`: lexicographic comparison of the code-point
sequences. -/
def charListLtB : List Char → List Char → Bool
  | [], [] => false
  | [], _ :: _ => true
  | _ :: _, [] => false
  | a :: as, b :: bs => if a < b then true else if b < a then false else charListLtB as bs

/-- `sorted(csv_files)`: the matched names sorted lexicographically (all
live in the same directory, so the common directory part is immaterial). -/
def sortFiles (files : List (String × Table)) : List (String × Table) :=
  List.insertionSort (fun a b : String × Table => charListLtB b.1.data a.1.data = false) files

/-- The loader's warning message for an undecodable filename. -/
def warnMsg (name : String) : String :=
  "Advertencia: No se pudo extraer B de " ++ name

/-- One iteration of the loader's `for csv_file in sorted(csv_files)` loop:
on decode failure emit a warning and continue, otherwise parse the CSV and
store the table under the decoded key. -/
def loadStep (acc : ResultSet × List String) (f : String × Table) : ResultSet × List String :=
  match decodeB f.1 with
  | none => (acc.1, acc.2 ++ [warnMsg f.1])
  | some b => (upsert b f.2 acc.1, acc.2)

/-- `load_calibration_data`, over the directory listing abstracted as
basename/parsed-table pairs (CSV parsing itself is delegated to pandas and
assumed to succeed, as in every claim considered): `None` when no file
matches the glob, otherwise the dict and warnings accumulated over the
sorted matching files. -/
def loadCalibration (files : List (String × Table)) : Option (ResultSet × List String) :=
  let matched := files.filter (fun f => matchesPat f.1)
  if matched.isEmpty then none
  else some ((sortFiles matched).foldl loadStep ([], []))

/-- Spec-side characterisation of the loaded dict: fold the decodable files
only. -/
def loadedOf (l : List (String × Table)) : ResultSet :=
  (l.filterMap (fun f => (decodeB f.1).map (fun b => (b, f.2)))).foldl
    (fun rs p => upsert p.1 p.2 rs) []

/-- Spec-side characterisation of the warnings: one per undecodable file,
in order. -/
def warnsOf (l : List (String × Table)) : List String :=
  (l.filter (fun f => (decodeB f.1).isNone)).map (fun f => warnMsg f.1)

/-! ### `Series.idxmax` and the chart functions -/

/-- Strict comparison used by `idxmax`: `nan` never compares, `-inf` is
below every comparable value, `inf` above. -/
def pdLtB : PdVal → PdVal → Bool
  | PdVal.nan, _ => false
  | _, PdVal.nan => false
  | PdVal.ninf, PdVal.ninf => false
  | PdVal.ninf, _ => true
  | _, PdVal.ninf => false
  | PdVal.inf, _ => false
  | PdVal.num _, PdVal.inf => true
  | PdVal.num a, PdVal.num b => decide (a < b)

/-- Pandas `Series.idxmax()` over a default `RangeIndex`: position of the
first occurrence of the maximum, skipping `nan`; `none` models the
`ValueError` raised on an empty or all-`nan` series. -/
def idxmaxPd : List PdVal → Option Nat
  | [] => none
  | v :: vs =>
    match idxmaxPd vs with
    | none => if v = PdVal.nan then none else some 0
    | some j =>
      match v with
      | PdVal.nan => some (j + 1)
      | _ => if pdLtB v (vs.getD j PdVal.nan) then some (j + 1) else some 0

/-- The optimum annotated on the cost-effectiveness chart (lines 134-137):
`idxmax` over the efficiency column of the **whole** baseline table, then
the `N` and `R_min` of that row. -/
def chartOptimal (df : Table) : Option (ℚ × ℚ) :=
  match idxmaxPd (effCol df) with
  | some i =>
    match df.rows.get? i with
    | some r => some (r.N, r.R_min)
    | none => none
  | none => none

/-- Replace the column `n` of the extra-column store, or append it. -/
def setA (n : String) (v : List PdVal) : List (String × List PdVal) → List (String × List PdVal)
  | [] => [(n, v)]
  | p :: rest => if p.1 = n then (n, v) :: rest else p :: setA n v rest

/-- `df[name] = column`: in-place column assignment on a dataframe. -/
def setCol (n : String) (v : List PdVal) (t : Table) : Table :=
  { t with extra := setA n v t.extra }

/-- Read an extra column of a dataframe by name. -/
def getColE (n : String) (t : Table) : Option (List PdVal) :=
  (t.extra.find? (fun p => p.1 == n)).map (fun p => p.2)

/-- Observable outcome of `plot_cost_effectiveness`: the warnings printed,
the result set after the call (the function assigns a column to the shared
baseline dataframe in place), the optimum annotated on the second panel,
and whether the call raised (on an empty baseline `iloc[0]` raises
`IndexError`; on an all-`nan` efficiency column `idxmax` raises). -/
structure CEOut where
  warnings : List String
  dataAfter : ResultSet
  annotated : Option (ℚ × ℚ)
  raised : Bool
deriving DecidableEq, Repr

/-- `plot_cost_effectiveness` (lines 88-151): warn and return when the
baseline key `0.0` is absent; otherwise add the efficiency column to the
baseline table in place and annotate the efficiency maximum. -/
def plot_cost_effectiveness (data : ResultSet) : CEOut :=
  match lookupT 0 data with
  | none => ⟨["Advertencia: No hay datos con B=0.0"], data, none, false⟩
  | some df =>
    let df2 := setCol "efficiency" (effCol df) df
    let data2 := upsert 0 df2 data
    ⟨[], data2,
      if df.rows.isEmpty then none else chartOptimal df,
      df.rows.isEmpty || (idxmaxPd (effCol df)).isNone⟩

/-- Observable outcome of `plot_r_vs_n_comparison`: per table (in sorted
key order) the valid curve points (`R_min ≤ 20`) and the `N` positions of
the failure marks (`R_min > 20`); and the bounds of the shaded low-load
region, `none` when no table is loaded (the `if data:` guard) or when the
first table is empty (`nan` bounds). -/
structure CompOut where
  curves : List (ℚ × List (ℚ × ℚ) × List ℚ)
  span : Option (ℚ × ℚ)
deriving DecidableEq, Repr

/-- `plot_r_vs_n_comparison` (lines 43-87).  The shaded region (lines
76-82) is computed from `list(data.values())[0]`: the **first** table in
dict insertion order, spanning from its minimum `N` over 30% of its `N`
range. -/
def plot_r_vs_n_comparison (data : ResultSet) : CompOut :=
  let curves := (sortByKey data).map (fun p =>
    (p.1,
     (p.2.rows.filter (fun r => decide (r.R_min ≤ 20))).map (fun r => (r.N, r.R_min)),
     (p.2.rows.filter (fun r => decide (20 < r.R_min))).map (fun r => r.N)))
  let span :=
    match data with
    | [] => none
    | p :: _ =>
      match colMin (p.2.rows.map (fun r => r.N)), colMax (p.2.rows.map (fun r => r.N)) with
      | some mn, some mx => some (mn, mn + (mx - mn) * (3 / 10))
      | _, _ => none
  ⟨curves, span⟩

/-- Modelled from the spec's words (for comparison with the code's span):
the low-load region based on the **baseline** table's `N` range. -/
def spanSpecC9 (data : ResultSet) : Option (ℚ × ℚ) :=
  (lookupT 0 data).bind (fun df =>
    match colMin (df.rows.map (fun r => r.N)), colMax (df.rows.map (fun r => r.N)) with
    | some mn, some mx => some (mn, mn + (mx - mn) * (3 / 10))
    | _, _ => none)

/-- The representative workloads of the first redundancy panel. -/
def sampleN : List ℚ := [10, 20, 30, 40, 50]

/-- Observable outcome of `plot_redundancy_analysis`: the first panel's
curves (per sample `N`: `R_min` against each sorted `B`, `none` marking the
`np.nan` gaps, a curve kept only when not all of its points are gaps); the
second panel's overhead series per non-zero `B` (absent entirely when the
baseline key is missing — the code skips it silently); and the warnings
printed (the function prints none). -/
structure RAOut where
  panel1 : List (ℚ × List (ℚ × Option ℚ))
  panel2 : Option (List (ℚ × List (ℚ × PdVal)))
  warnings : List String
deriving DecidableEq, Repr

/-- `plot_redundancy_analysis` (lines 153-223). -/
def plot_redundancy_analysis (data : ResultSet) : RAOut :=
  let bs := sortKeys data
  let p1 :=
    if data.isEmpty then []
    else sampleN.filterMap (fun n =>
      let rv : List (ℚ × Option ℚ) := bs.map (fun b =>
        (b, match lookupT b data with
            | some df => (lookupN n df.rows).map (fun r => r.R_min)
            | none => none))
      if rv.all (fun x => x.2.isNone) then none else some (n, rv))
  let p2 :=
    match lookupT 0 data with
    | none => none
    | some base => some ((bs.filter (fun b => decide (b ≠ 0))).filterMap (fun b =>
        match lookupT b data with
        | some df =>
          let ov := overheadLoop base.rows df.rows
          if ov.isEmpty then none else some (b, ov)
        | none => none))
  ⟨p1, p2, []⟩

/-! ### Number formatting and the text report -/

/-- Round to the nearest integer, ties to even — the rounding of Python's
fixed-point `format` (on the rational idealisation of the float value). -/
def roundHE (x : ℚ) : ℤ :=
  let f := Int.floor x
  let r := x - (f : ℚ)
  if r < 1 / 2 then f
  else if (1 : ℚ) / 2 < r then f + 1
  else if f % 2 = 0 then f else f + 1

/-- Pad a digit string on the left with zeros to a minimum length. -/
def padZeros (s : String) (n : Nat) : String :=
  if n ≤ s.length then s else String.mk (List.replicate (n - s.length) '0') ++ s

/-- Python `format(q, '.<prec>f')` for a finite value. -/
def fmtF (prec : Nat) (q : ℚ) : String :=
  let m := roundHE (q * ((10 : ℚ) ^ prec))
  let sgn := if m < 0 then "-" else ""
  let s := padZeros (toString m.natAbs) (prec + 1)
  if prec = 0 then sgn ++ s
  else
    sgn ++ String.mk (s.data.take (s.data.length - prec)) ++ "." ++
      String.mk (s.data.drop (s.data.length - prec))

/-- Fixed-point formatting of a pandas value: special values print as
`inf`, `-inf`, `nan`, as Python's `format` does. -/
def fmtPd (prec : Nat) : PdVal → String
  | PdVal.num q => fmtF prec q
  | PdVal.inf => "inf"
  | PdVal.ninf => "-inf"
  | PdVal.nan => "nan"

/-- Formatting of a possibly-`nan` column statistic. -/
def fmtOpt (prec : Nat) : Option ℚ → String
  | none => "nan"
  | some q => fmtF prec q

/-- The 70-character separator rule `"="*70` of the report. -/
def sep70 : String := String.mk (List.replicate 70 '=')

/-- The optimal operating point of the report's recommendation 1 (lines
258-263): filter the baseline table to `R_min <= 20`, compute the
efficiency column on the filtered copy, take `idxmax`, and read off `N`,
`R_min` and the efficiency there.  `none` models the `ValueError` of
`idxmax` on an all-`nan` column (the caller only reaches this with a
non-empty filtered table). -/
def reportOptimal (df : Table) : Option (ℚ × ℚ × PdVal) :=
  let valid := df.rows.filter (fun r => decide (r.R_min ≤ 20))
  let eff := valid.map (fun r => pdDiv r.N r.R_min)
  (idxmaxPd eff).map (fun i =>
    ((valid.getD i ⟨0, 0, 0⟩).N, (valid.getD i ⟨0, 0, 0⟩).R_min, eff.getD i PdVal.nan))

/-- One per-table block of the report loop (lines 232-247). -/
def tableSection (p : ℚ × Table) : String :=
  let df := p.2
  let ns := df.rows.map (fun r => r.N)
  let rs := df.rows.map (fun r => r.R_min)
  let valid := df.rows.filter (fun r => decide (r.R_min ≤ 20))
  "\n--- Probabilidad de Falla B = " ++ fmtF 3 p.1 ++ " ---\n" ++
  "  Rango de mangos (N): " ++ fmtOpt 0 (colMin ns) ++ " - " ++ fmtOpt 0 (colMax ns) ++ "\n" ++
  "  Robots mínimos:      " ++ fmtOpt 0 (colMin rs) ++ "\n" ++
  "  Robots máximos:      " ++ fmtOpt 0 (colMax rs) ++ "\n" ++
  (if valid.isEmpty then ""
   else
     "  Eficiencia promedio: " ++
       fmtPd 2 (pdMean (valid.map (fun r => pdDiv r.N r.R_min))) ++ " mangos/robot\n" ++
     "  Tasa éxito promedio: " ++
       fmtF 1 (meanQ (valid.map (fun r => r.success_rate)) * 100) ++ "%\n")

/-- Recommendation section 1 of the report (lines 252-266): written only
when the baseline is present and has valid rows — including its heading.
`none` models the `idxmax` raise. -/
def sec1 (d : ResultSet) : Option String :=
  match lookupT 0 d with
  | none => some ""
  | some df =>
    if (df.rows.filter (fun r => decide (r.R_min ≤ 20))).isEmpty then some ""
    else
      match reportOptimal df with
      | none => none
      | some (n, r, e) =>
        some ("\n1. PUNTO ÓPTIMO DE OPERACIÓN (sin fallas):\n" ++
          "   - Configuración: N=" ++ fmtF 0 n ++ " mangos, R=" ++ fmtF 0 r ++ " robots\n" ++
          "   - Eficiencia: " ++ fmtPd 2 e ++ " mangos/robot\n" ++
          "   - Esta configuración maximiza la utilización de recursos\n")

/-- Body of recommendation section 2 (lines 269-281): the `B = 0.05` versus
baseline comparison at `N = 30`, present only when both tables and both
rows exist; its heading is written unconditionally by the caller. -/
def sec2 (d : ResultSet) : String :=
  match lookupT 0 d, lookupT (1 / 20) d with
  | some df0, some df005 =>
    match lookupN 30 df0.rows, lookupN 30 df005.rows with
    | some r0, some r005 =>
      "   - Con B=0.05, se requiere " ++
        fmtPd 1 (pdMul100 (pdDiv (r005.R_min - r0.R_min) r0.R_min)) ++ "% más robots\n" ++
      "   - Ejemplo: N=30 mangos requiere " ++ fmtF 0 r0.R_min ++ " robots (B=0) vs " ++
        fmtF 0 r005.R_min ++ " robots (B=0.05)\n"
    | _, _ => ""
  | _, _ => ""

/-- The report text over an already-sorted items list: header, one block
per table, then the three recommendation sections.  Section 2's heading
and all of section 3 are unconditional; section 1 appears only with its
data. -/
def reportCore (d : ResultSet) : Option String :=
  match sec1 d with
  | none => none
  | some s1 =>
    some (sep70 ++ "\n" ++ " MangoNeado - Reporte de Análisis de Calibración\n" ++
      sep70 ++ "\n\n" ++
      String.join (d.map tableSection) ++
      "\n" ++ sep70 ++ "\n" ++ " RECOMENDACIONES\n" ++ sep70 ++ "\n" ++
      s1 ++
      "\n2. IMPACTO DE REDUNDANCIA:\n" ++
      sec2 d ++
      "\n3. ESCALABILIDAD:\n" ++
      "   - El sistema escala aproximadamente linealmente con N\n" ++
      "   - Para cargas de 1.2×N, planificar incremento proporcional de robots\n" ++
      "\n" ++ sep70 ++ "\n")

/-- `generate_summary_report` (lines 225-297): the content written to
`analysis_report.txt`.  The loop runs over `sorted(data.items())`; the
dict lookups (`0.0 in data`, `data[0.0]`, `0.05 in data`) are evaluated on
the same mapping, here read off the sorted items (a Python dict has unique
keys, so the two views agree).  `none` models an exception escaping before
the file is complete. -/
def reportString (data : ResultSet) : Option String :=
  reportCore (sortByKey data)

/-! ### Concrete tables and strings used by witnesses and counterexamples -/

/-- The one-row table `[(N=30, R_min=5)]` of the spec's overhead example. -/
def tEx : Table := ⟨[⟨30, 5, 1⟩], []⟩

/-- A two-row table with `N` range 10–20. -/
def tEx2 : Table := ⟨[⟨10, 4, 1⟩, ⟨20, 6, 1⟩], []⟩

/-- A table whose single row has `R_min = 0`. -/
def tBad : Table := ⟨[⟨5, 0, 1⟩], []⟩

/-- A table whose best-efficiency row exceeds the validity cap:
efficiencies are `5` and `10`, the latter at `R_min = 21 > 20`. -/
def tCap : Table := ⟨[⟨10, 2, 1⟩, ⟨210, 21, 1⟩], []⟩

/-- The exact report text produced for an empty `ResultSet`. -/
def rptEmpty : String :=
  sep70 ++ "\n MangoNeado - Reporte de Análisis de Calibración\n" ++ sep70 ++
    "\n\n\n" ++ sep70 ++ "\n RECOMENDACIONES\n" ++ sep70 ++
    "\n\n2. IMPACTO DE REDUNDANCIA:\n\n3. ESCALABILIDAD:\n" ++
    "   - El sistema escala aproximadamente linealmente con N\n" ++
    "   - Para cargas de 1.2×N, planificar incremento proporcional de robots\n\n" ++
    sep70 ++ "\n"

/-- Substring test on character lists (for report-content statements). -/
def containsSub (pat : List Char) : List Char → Bool
  | [] => pat.isEmpty
  | c :: cs => pat.isPrefixOf (c :: cs) || containsSub pat cs

/-! ### Association list and lookup lemmas -/

theorem lookupT_upsert_self (k : ℚ) (t : Table) (l : ResultSet) :
    lookupT k (upsert k t l) = some t := by
  induction l with
  | nil => simp [upsert, lookupT]
  | cons p rest ih =>
    by_cases hp : p.1 = k
    · simp [upsert, hp, lookupT]
    · simp [upsert, hp, lookupT, ih]

theorem lookupT_upsert_ne (k k' : ℚ) (t : Table) (l : ResultSet) (h : k' ≠ k) :
    lookupT k' (upsert k t l) = lookupT k' l := by
  induction l with
  | nil => simp [upsert, lookupT, Ne.symm h]
  | cons p rest ih =>
    by_cases hp : p.1 = k
    · have hpk : p.1 ≠ k' := by rw [hp]; exact Ne.symm h
      rw [upsert, if_pos hp, lookupT, if_neg (Ne.symm h), lookupT, if_neg hpk]
    · by_cases hpk : p.1 = k'
      · rw [upsert, if_neg hp, lookupT, if_pos hpk, lookupT, if_pos hpk]
      · rw [upsert, if_neg hp, lookupT, if_neg hpk, lookupT, if_neg hpk, ih]

theorem lookupN_mem {n : ℚ} {rs : List Row} {r : Row} (h : lookupN n rs = some r) :
    r ∈ rs := by
  induction rs with
  | nil => simp [lookupN] at h
  | cons a as ih =>
    rw [lookupN] at h
    by_cases ha : a.N = n
    · simp only [ha, if_true, Option.some.injEq] at h
      exact h ▸ List.mem_cons_self a as
    · simp only [ha, if_false] at h
      exact List.mem_cons_of_mem a (ih h)

theorem lookupN_self {rs : List Row} (hnd : (rs.map Row.N).Nodup) {r : Row}
    (hr : r ∈ rs) : lookupN r.N rs = some r := by
  induction rs with
  | nil => cases hr
  | cons a as ih =>
    rcases List.mem_cons.mp hr with h | h
    · subst h
      simp [lookupN]
    · have hne : a.N ≠ r.N := by
        intro hEq
        have : r.N ∈ as.map Row.N := List.mem_map_of_mem Row.N h
        rw [List.map_cons] at hnd
        exact (List.nodup_cons.mp hnd).1 (hEq ▸ this)
      rw [lookupN, if_neg hne]
      exact ih (List.nodup_cons.mp (List.map_cons Row.N a as ▸ hnd)).2 h

/-! ### Claim C2: the overhead series -/

/-- C2: for every baseline and comparison table, the overhead series holds,
for exactly the comparison rows whose `N` matches a baseline row, the value
`(r_with_b - r_baseline) / r_baseline * 100`; unmatched rows are skipped.
In particular on baseline `[(N=30, R_min=5)]` and comparison
`[(N=30, R_min=6)]` the overhead is `20.0`. -/
theorem overhead_series_formula (base comp : List Row)
    (hb : ∀ r ∈ base, r.R_min ≠ 0) :
    overheadLoop base comp = comp.filterMap (fun r =>
      (lookupN r.N base).map (fun rb =>
        (r.N, PdVal.num ((r.R_min - rb.R_min) / rb.R_min * 100)))) ∧
    overheadLoop [⟨30, 5, 1⟩] [⟨30, 6, 1⟩] = [(30, PdVal.num 20)] := by
  constructor
  · induction comp with
    | nil => rfl
    | cons r rs ih =>
      cases hl : lookupN r.N base with
      | none => simp [overheadLoop, hl, ih]
      | some rb =>
        have hrb : rb.R_min ≠ 0 := hb rb (lookupN_mem hl)
        simp [overheadLoop, hl, ih, pdDiv, pdMul100, hrb, div_mul_eq_mul_div]
  · simp only [overheadLoop, lookupN, if_pos rfl, pdDiv, pdMul100]
    norm_num

/-- Witness for C2 at the spec's concrete example. -/
theorem overhead_series_formula_witness :
    (∀ r ∈ [(⟨30, 5, 1⟩ : Row)], r.R_min ≠ 0) ∧
    overheadLoop [⟨30, 5, 1⟩] [⟨30, 6, 1⟩] =
      [⟨30, 6, 1⟩].filterMap (fun r : Row =>
        (lookupN r.N [⟨30, 5, 1⟩]).map (fun rb =>
          (r.N, PdVal.num ((r.R_min - rb.R_min) / rb.R_min * 100)))) :=
  ⟨by decide, (overhead_series_formula [⟨30, 5, 1⟩] [⟨30, 6, 1⟩] (by decide)).1⟩

/-! ### Claim C8: overhead of a table against itself -/

/-- C8: comparing a table (unique `N` values, positive `R_min`, per the
data model) against itself as its own baseline yields overhead `0` for
every row. -/
theorem overhead_self_zero (t : Table)
    (hnd : (t.rows.map Row.N).Nodup) (hr : ∀ r ∈ t.rows, r.R_min ≠ 0) :
    overheadLoop t.rows t.rows = t.rows.map (fun r => (r.N, PdVal.num 0)) := by
  have aux : ∀ comp : List Row, (∀ r ∈ comp, r ∈ t.rows) →
      overheadLoop t.rows comp = comp.map (fun r => (r.N, PdVal.num 0)) := by
    intro comp
    induction comp with
    | nil => intro _; rfl
    | cons r rs ih =>
      intro hsub
      have hmem : r ∈ t.rows := hsub r (List.mem_cons_self r rs)
      have hl : lookupN r.N t.rows = some r := lookupN_self hnd hmem
      have hrm : r.R_min ≠ 0 := hr r hmem
      simp [overheadLoop, hl, pdDiv, pdMul100, hrm,
        ih (fun x hx => hsub x (List.mem_cons_of_mem r hx))]
  exact aux t.rows (fun _ hx => hx)

/-- Witness for C8 on a concrete two-row table. -/
theorem overhead_self_zero_witness :
    (((tEx2.rows.map Row.N).Nodup ∧ ∀ r ∈ tEx2.rows, r.R_min ≠ 0)) ∧
    overheadLoop tEx2.rows tEx2.rows = tEx2.rows.map (fun r => (r.N, PdVal.num 0)) :=
  ⟨⟨by decide, by decide⟩, overhead_self_zero tEx2 (by decide) (by decide)⟩

/-! ### Claim C1: the efficiency derivation -/

/-- C1 (amended): the efficiency derivation assigns a value to **every**
row of the table — `N / R_min` whenever `R_min > 0` — rather than excluding
rows with non-positive `R_min` (such rows receive an IEEE special value
from the division by zero). -/
theorem efficiency_recompute (t : Table) :
    (effCol t).length = t.rows.length ∧
    ∀ i, ∀ h : i < t.rows.length, 0 < (t.rows.get ⟨i, h⟩).R_min →
      (effCol t).getD i PdVal.nan =
        PdVal.num ((t.rows.get ⟨i, h⟩).N / (t.rows.get ⟨i, h⟩).R_min) := by
  constructor
  · simp [effCol]
  · intro i h hpos
    have hv : (effCol t).getD i PdVal.nan =
        pdDiv (t.rows.get ⟨i, h⟩).N (t.rows.get ⟨i, h⟩).R_min := by
      rw [List.getD_eq_get?, effCol, List.get?_map, List.get?_eq_get h]
      rfl
    rw [hv, pdDiv, if_neg hpos.ne']

/-- Witness for C1 at the one-row table `[(N=30, R_min=5)]`. -/
theorem efficiency_recompute_witness :
    (effCol tEx).length = tEx.rows.length ∧
    (effCol tEx).getD 0 PdVal.nan = PdVal.num ((30 : ℚ) / 5) :=
  ⟨(efficiency_recompute tEx).1,
   (efficiency_recompute tEx).2 0 (by decide) (by decide)⟩

/-- C1 counterexample: on a table whose single row has `R_min = 0`, the
code's efficiency column still has an entry for that row (the numpy `inf`),
so rows with non-positive `R_min` are **not** excluded from the
derivation as the claim states. -/
theorem efficiency_no_exclusion_counter :
    effCol tBad = [PdVal.inf] ∧
    ¬ (effCol tBad).length =
        (tBad.rows.filter (fun r => decide (0 < r.R_min))).length := by
  decide

/-! ### Claim C10: in-place mutation by the cost-effectiveness chart -/

theorem findA_setA_ne (m n : String) (v : List PdVal)
    (l : List (String × List PdVal)) (h : m ≠ n) :
    (setA n v l).find? (fun p => p.1 == m) = l.find? (fun p => p.1 == m) := by
  induction l with
  | nil =>
    have hnm : (n == m) = false := by simp [Ne.symm h]
    simp [setA, List.find?, hnm]
  | cons p rest ih =>
    by_cases hp : p.1 = n
    · rw [setA, if_pos hp]
      have hpm : (p.1 == m) = false := by simp [hp, Ne.symm h]
      have hnm : ((n, v).1 == m) = false := by simp [Ne.symm h]
      simp only [List.find?, hpm, hnm]
    · rw [setA, if_neg hp]
      cases hpm : (p.1 == m) <;> simp only [List.find?, hpm, ih]

theorem getColE_setCol_ne (m n : String) (v : List PdVal) (t : Table) (h : m ≠ n) :
    getColE m (setCol n v t) = getColE m t := by
  unfold getColE setCol
  rw [findA_setA_ne m n v t.extra h]

/-- C10: when the baseline key `0.0` is present, rendering the
cost-effectiveness chart mutates the shared `ResultSet` in place: the
baseline table gains the `efficiency` column, while every other key's
table, the baseline's CSV rows, and its other extra columns are unchanged. -/
theorem cost_chart_mutation (data : ResultSet) (df : Table)
    (h : lookupT 0 data = some df) :
    (plot_cost_effectiveness data).dataAfter =
      upsert 0 (setCol "efficiency" (effCol df) df) data ∧
    lookupT 0 (plot_cost_effectiveness data).dataAfter =
      some (setCol "efficiency" (effCol df) df) ∧
    (∀ k, k ≠ 0 → lookupT k (plot_cost_effectiveness data).dataAfter = lookupT k data) ∧
    (setCol "efficiency" (effCol df) df).rows = df.rows ∧
    (∀ m, m ≠ "efficiency" →
      getColE m (setCol "efficiency" (effCol df) df) = getColE m df) := by
  have hafter : (plot_cost_effectiveness data).dataAfter =
      upsert 0 (setCol "efficiency" (effCol df) df) data := by
    simp [plot_cost_effectiveness, h]
  refine ⟨hafter, ?_, ?_, rfl, ?_⟩
  · rw [hafter, lookupT_upsert_self]
  · intro k hk
    rw [hafter, lookupT_upsert_ne 0 k _ data hk]
  · intro m hm
    exact getColE_setCol_ne m "efficiency" (effCol df) df hm

/-- Witness for C10 on a singleton `ResultSet` holding the baseline. -/
theorem cost_chart_mutation_witness :
    lookupT 0 [((0 : ℚ), tEx)] = some tEx ∧
    (plot_cost_effectiveness [((0 : ℚ), tEx)]).dataAfter =
      upsert 0 (setCol "efficiency" (effCol tEx) tEx) [((0 : ℚ), tEx)] :=
  ⟨by decide, (cost_chart_mutation [((0 : ℚ), tEx)] tEx (by decide)).1⟩

/-! ### Claim C5: behaviour when the baseline table is absent -/

/-- C5 (amended): when key `0.0` is absent, the cost-effectiveness chart is
skipped with a warning and returns without raising (and without touching
the data); the overhead panel of the redundancy chart is also skipped
without raising, but **silently** — `plot_redundancy_analysis` prints no
warning. -/
theorem baseline_missing_skip (data : ResultSet) (h : lookupT 0 data = none) :
    plot_cost_effectiveness data =
      ⟨["Advertencia: No hay datos con B=0.0"], data, none, false⟩ ∧
    (plot_redundancy_analysis data).panel2 = none ∧
    (plot_redundancy_analysis data).warnings = [] := by
  refine ⟨?_, ?_, rfl⟩
  · simp [plot_cost_effectiveness, h]
  · simp [plot_redundancy_analysis, h]

/-- Witness for C5 on a `ResultSet` with a single non-zero key. -/
theorem baseline_missing_skip_witness :
    lookupT 0 [((5 : ℚ), tEx)] = none ∧
    plot_cost_effectiveness [((5 : ℚ), tEx)] =
      ⟨["Advertencia: No hay datos con B=0.0"], [((5 : ℚ), tEx)], none, false⟩ :=
  ⟨by decide, (baseline_missing_skip [((5 : ℚ), tEx)] (by decide)).1⟩

/-- C5 counterexample: with the baseline absent, the redundancy chart's
overhead panel is skipped but the function emits **no** warning, contrary
to the claim that the skip comes with a warning. -/
theorem baseline_missing_no_warning_counter :
    (plot_redundancy_analysis [((5 : ℚ), tEx)]).warnings = [] ∧
    (plot_redundancy_analysis [((5 : ℚ), tEx)]).panel2 = none := by
  constructor <;> rfl

/-! ### Claim C6: the report on an empty ResultSet -/

/-- C6 (amended): report generation on an empty `ResultSet` does not raise
and produces exactly the fixed header/heading text: no per-table block and
no recommendation figure.  Section 2 keeps its heading with its figures
omitted, but section 1's heading is omitted along with its figures (the
code writes it inside the data-presence guard), so not every
missing-data section keeps its heading. -/
theorem report_empty_shape :
    reportString [] = some rptEmpty ∧
    containsSub "2. IMPACTO DE REDUNDANCIA:".data rptEmpty.data = true ∧
    containsSub "3. ESCALABILIDAD:".data rptEmpty.data = true ∧
    containsSub "--- Probabilidad de Falla".data rptEmpty.data = false ∧
    containsSub "Eficiencia".data rptEmpty.data = false := by
  refine ⟨?_, by decide, by decide, by decide, by decide⟩
  decide

/-- C6 counterexample: the claim says a recommendation section with
missing data keeps its heading; on the empty `ResultSet` the report omits
the heading of recommendation section 1 entirely. -/
theorem report_empty_heading_counter :
    reportString [] = some rptEmpty ∧
    containsSub "1. PUNTO ÓPTIMO DE OPERACIÓN (sin fallas):".data rptEmpty.data = false := by
  refine ⟨?_, by decide⟩
  decide

/-! ### Claim C7: report determinism and ordering -/

theorem pairwise_keyLt_of_sorted (l : ResultSet) (hs : List.Sorted keyLe l)
    (hn : (l.map Prod.fst).Nodup) : l.Pairwise keyLt := by
  have hne : l.Pairwise (fun p q : ℚ × Table => p.1 ≠ q.1) := List.pairwise_map.mp hn
  exact (hs.and hne).imp (fun h => lt_of_le_of_ne h.1 h.2)

theorem sortByKey_eq_of_perm (d₁ d₂ : ResultSet)
    (hnd : (d₁.map Prod.fst).Nodup) (hp : d₁.Perm d₂) :
    sortByKey d₁ = sortByKey d₂ := by
  have hperm : (sortByKey d₁).Perm (sortByKey d₂) :=
    (List.perm_insertionSort keyLe d₁).trans
      (hp.trans (List.perm_insertionSort keyLe d₂).symm)
  have hnd₁ : ((sortByKey d₁).map Prod.fst).Nodup :=
    (((List.perm_insertionSort keyLe d₁).map Prod.fst).nodup_iff).mpr hnd
  have hnd₂ : ((sortByKey d₂).map Prod.fst).Nodup :=
    (((List.perm_insertionSort keyLe d₂).map Prod.fst).nodup_iff).mpr
      ((hp.map Prod.fst).nodup_iff.mp hnd)
  exact List.eq_of_perm_of_sorted hperm
    (pairwise_keyLt_of_sorted _ (List.sorted_insertionSort keyLe d₁) hnd₁)
    (pairwise_keyLt_of_sorted _ (List.sorted_insertionSort keyLe d₂) hnd₂)

/-- C7: report generation is a deterministic function of the mapping: on
equal `ResultSet`s (same key-table pairs in any insertion order, keys
unique as in a dict) the report text is byte-identical, and the per-table
blocks are emitted in strictly ascending order of the failure-probability
key. -/
theorem report_deterministic (d₁ d₂ : ResultSet)
    (hnd : (d₁.map Prod.fst).Nodup) (hp : d₁.Perm d₂) :
    reportString d₁ = reportString d₂ ∧
    List.Sorted (· < ·) ((sortByKey d₁).map Prod.fst) := by
  constructor
  · rw [reportString, reportString, sortByKey_eq_of_perm d₁ d₂ hnd hp]
  · have hnd₁ : ((sortByKey d₁).map Prod.fst).Nodup :=
      (((List.perm_insertionSort keyLe d₁).map Prod.fst).nodup_iff).mpr hnd
    exact List.pairwise_map.mpr
      (pairwise_keyLt_of_sorted _ (List.sorted_insertionSort keyLe d₁) hnd₁)

/-- Witness for C7 on a two-table `ResultSet` presented in two insertion
orders. -/
theorem report_deterministic_witness :
    reportString [((5 : ℚ), tEx), ((0 : ℚ), tEx2)] =
      reportString [((0 : ℚ), tEx2), ((5 : ℚ), tEx)] ∧
    List.Sorted (· < ·)
      ((sortByKey [((5 : ℚ), tEx), ((0 : ℚ), tEx2)]).map Prod.fst) :=
  report_deterministic [((5 : ℚ), tEx), ((0 : ℚ), tEx2)]
    [((0 : ℚ), tEx2), ((5 : ℚ), tEx)] (by decide) (List.Perm.swap _ _ _)

/-! ### Claim C3: the efficiency-maximising computations and the cap -/

theorem getD_eq_get {α : Type} (l : List α) (d : α) {i : Nat} (h : i < l.length) :
    l.getD i d = l.get ⟨i, h⟩ := by
  rw [List.getD_eq_get?, List.get?_eq_get h]
  rfl

theorem getD_map_num (l : List ℚ) (j : Nat) (h : j < l.length) :
    (l.map PdVal.num).getD j PdVal.nan = PdVal.num (l.getD j 0) := by
  rw [List.getD_eq_get?, List.getD_eq_get?, List.get?_map, List.get?_eq_get h]
  rfl

theorem idxmaxPd_num_cons_isSome (x : ℚ) (rest : List ℚ) :
    (idxmaxPd ((x :: rest).map PdVal.num)).isSome := by
  rw [List.map_cons]
  cases h : idxmaxPd (rest.map PdVal.num) with
  | none => simp [idxmaxPd, h]
  | some j =>
    simp only [idxmaxPd, h]
    split <;> simp

theorem getD_map_effQ (l : List Row) (j : Nat) (h : j < l.length) :
    (l.map effQ).getD j 0 = effQ (l.get ⟨j, h⟩) := by
  rw [List.getD_eq_get?, List.get?_map, List.get?_eq_get h]
  rfl

theorem idxmaxPd_num_sound (qs : List ℚ) :
    ∀ i, idxmaxPd (qs.map PdVal.num) = some i →
      i < qs.length ∧ ∀ j, j < qs.length → qs.getD j 0 ≤ qs.getD i 0 := by
  induction qs with
  | nil => intro i h; simp [idxmaxPd] at h
  | cons x rest ih =>
    intro i h
    rw [List.map_cons] at h
    cases hr : idxmaxPd (rest.map PdVal.num) with
    | none =>
      cases rest with
      | nil =>
        simp [idxmaxPd] at h
        subst h
        refine ⟨by simp, ?_⟩
        intro j hj
        have hj0 : j = 0 := by simpa [Nat.lt_one_iff] using hj
        subst hj0
        exact le_refl _
      | cons y t =>
        have hs := idxmaxPd_num_cons_isSome y t
        rw [hr] at hs
        simp at hs
    | some j =>
      obtain ⟨hjlen, hjmax⟩ := ih j hr
      have hjlen' : j < (rest.map PdVal.num).length := by simpa using hjlen
      rw [idxmaxPd, hr] at h
      simp only at h
      rw [getD_map_num rest j hjlen] at h
      have hlt : pdLtB (PdVal.num x) (PdVal.num (rest.getD j 0)) =
          decide (x < rest.getD j 0) := rfl
      rw [hlt] at h
      by_cases hx : x < rest.getD j 0
      · rw [if_pos (by simpa using hx)] at h
        cases h
        refine ⟨by simpa using Nat.succ_lt_succ hjlen, ?_⟩
        intro j' hj'
        cases j' with
        | zero => simpa using le_of_lt hx
        | succ k =>
          simp only [List.getD_cons_succ]
          exact hjmax k (Nat.lt_of_succ_lt_succ hj')
      · rw [if_neg (by simpa using hx)] at h
        cases h
        refine ⟨by simp, ?_⟩
        intro j' hj'
        cases j' with
        | zero => simp
        | succ k =>
          simp only [List.getD_cons_succ, List.getD_cons_zero]
          exact le_trans (hjmax k (Nat.lt_of_succ_lt_succ hj')) (not_lt.mp hx)

theorem effCol_eq_map_num (rs : List Row) (hpos : ∀ r ∈ rs, 0 < r.R_min) :
    rs.map (fun r => pdDiv r.N r.R_min) = (rs.map effQ).map PdVal.num := by
  rw [List.map_map]
  refine List.map_congr_left ?_
  intro r hr
  rw [Function.comp_apply, pdDiv, if_neg (hpos r hr).ne']
  rfl

/-- C3 (amended): of the two efficiency-maximising computations, the one
in the report's recommendation section maximises among the rows with
`R_min ≤ 20` only and is absent when no such row exists; but the optimum
annotated on the cost-effectiveness chart maximises over **all** rows of
the baseline table — the code applies no validity cap there.  (Inputs
satisfy the data-model invariant `R_min ≥ 1`.) -/
theorem optimal_point_cap (df : Table) (hpos : ∀ r ∈ df.rows, 0 < r.R_min) :
    (df.rows.filter (fun r => decide (r.R_min ≤ 20)) = [] →
      reportOptimal df = none) ∧
    (∀ n rr e, reportOptimal df = some (n, rr, e) →
      ∃ row ∈ df.rows.filter (fun r => decide (r.R_min ≤ 20)),
        n = row.N ∧ rr = row.R_min ∧ e = PdVal.num (row.N / row.R_min) ∧
        ∀ row2 ∈ df.rows.filter (fun r => decide (r.R_min ≤ 20)),
          row2.N / row2.R_min ≤ row.N / row.R_min) ∧
    (∀ n rr, chartOptimal df = some (n, rr) →
      ∃ row ∈ df.rows, n = row.N ∧ rr = row.R_min ∧
        ∀ row2 ∈ df.rows, row2.N / row2.R_min ≤ row.N / row.R_min) := by
  have hposv : ∀ r ∈ df.rows.filter (fun r => decide (r.R_min ≤ 20)), 0 < r.R_min :=
    fun r hr => hpos r (List.mem_of_mem_filter hr)
  refine ⟨?_, ?_, ?_⟩
  · intro hemp
    simp [reportOptimal, hemp, idxmaxPd]
  · intro n rr e h
    simp only [reportOptimal] at h
    rw [effCol_eq_map_num _ hposv] at h
    rcases Option.map_eq_some'.mp h with ⟨i, hi, hval⟩
    obtain ⟨hlen, hmax⟩ := idxmaxPd_num_sound _ i hi
    rw [List.length_map] at hlen
    have hn := congrArg Prod.fst hval
    have hrr := congrArg (fun p : ℚ × ℚ × PdVal => p.2.1) hval
    have he := congrArg (fun p : ℚ × ℚ × PdVal => p.2.2) hval
    simp only at hn hrr he
    refine ⟨(df.rows.filter (fun r => decide (r.R_min ≤ 20))).get ⟨i, hlen⟩,
      List.get_mem _ i hlen, ?_, ?_, ?_, ?_⟩
    · rw [← hn, getD_eq_get _ _ hlen]
    · rw [← hrr, getD_eq_get _ _ hlen]
    · rw [← he, getD_map_num _ i (by simpa using hlen), getD_map_effQ _ i hlen]
      rfl
    · intro row2 hmem
      rcases List.mem_iff_get.mp hmem with ⟨j, hj⟩
      have hle := hmax j.1 (by simpa using j.2)
      rw [getD_map_effQ _ j.1 j.2, getD_map_effQ _ i hlen] at hle
      have hj' : (df.rows.filter (fun r => decide (r.R_min ≤ 20))).get ⟨j.1, j.2⟩ = row2 := hj
      rw [hj'] at hle
      exact hle
  · intro n rr h
    simp only [chartOptimal, effCol] at h
    rw [effCol_eq_map_num _ hpos] at h
    cases hi : idxmaxPd ((df.rows.map effQ).map PdVal.num) with
    | none => rw [hi] at h; cases h
    | some i =>
      rw [hi] at h
      obtain ⟨hlen, hmax⟩ := idxmaxPd_num_sound _ i hi
      rw [List.length_map] at hlen
      simp only [List.get?_eq_get hlen, Option.some.injEq, Prod.mk.injEq] at h
      refine ⟨df.rows.get ⟨i, hlen⟩, List.get_mem _ i hlen, h.1.symm, h.2.symm, ?_⟩
      intro row2 hmem
      rcases List.mem_iff_get.mp hmem with ⟨j, hj⟩
      have hle := hmax j.1 (by simpa using j.2)
      rw [getD_map_effQ _ j.1 j.2, getD_map_effQ _ i hlen] at hle
      have hj' : df.rows.get ⟨j.1, j.2⟩ = row2 := hj
      rw [hj'] at hle
      exact hle

/-- Witness for C3 on a concrete valid baseline table. -/
theorem optimal_point_cap_witness :
    (∀ r ∈ tEx2.rows, 0 < r.R_min) ∧
    (tEx2.rows.filter (fun r => decide (r.R_min ≤ 20)) = [] →
      reportOptimal tEx2 = none) :=
  ⟨by decide, (optimal_point_cap tEx2 (by decide)).1⟩

/-- C3 counterexample: on a baseline table whose best-efficiency row has
`R_min = 21`, the cost-effectiveness chart annotates exactly that row —
the chart's efficiency-maximising computation does **not** exclude rows
with `R_min` above the validity cap of 20, contrary to the claim. -/
theorem chart_optimal_ignores_cap_counter :
    (plot_cost_effectiveness [((0 : ℚ), tCap)]).annotated = some (210, 21) ∧
    chartOptimal tCap = some (210, 21) ∧
    ¬ ((21 : ℚ) ≤ 20) := by
  have heff : effCol tCap = [PdVal.num 5, PdVal.num 10] := by
    simp only [effCol, tCap, List.map_cons, List.map_nil, pdDiv]
    norm_num
  have hidx : idxmaxPd (effCol tCap) = some 1 := by
    rw [heff]
    decide
  have hchart : chartOptimal tCap = some (210, 21) := by
    rw [chartOptimal, hidx]
    rfl
  refine ⟨?_, hchart, by norm_num⟩
  simp only [plot_cost_effectiveness, lookupT, if_pos rfl]
  simpa [tCap] using hchart

/-! ### Claim C4: loader keying and filename decoding -/

theorem decodeB_f000 : decodeB "r_vs_n_B0.000.csv" = some 0 := by
  have hdel : String.mk (delOcc patTail (delOcc patHead "r_vs_n_B0.000.csv".data)) =
      "0.000" := by decide
  rw [decodeB, hdel]
  have hstep : parsePyFloat "0.000" =
      some ((digitsVal ['0'] : ℚ) + (digitsVal ['0', '0', '0'] : ℚ) / ((10 : ℚ) ^ (3 : Nat))) :=
    rfl
  have hd : digitsVal ['0'] = 0 := by decide
  have hd3 : digitsVal ['0', '0', '0'] = 0 := by decide
  rw [hstep, hd, hd3]
  norm_num

theorem decodeB_f050 : decodeB "r_vs_n_B0.050.csv" = some (1 / 20) := by
  have hdel : String.mk (delOcc patTail (delOcc patHead "r_vs_n_B0.050.csv".data)) =
      "0.050" := by decide
  rw [decodeB, hdel]
  have hstep : parsePyFloat "0.050" =
      some ((digitsVal ['0'] : ℚ) + (digitsVal ['0', '5', '0'] : ℚ) / ((10 : ℚ) ^ (3 : Nat))) :=
    rfl
  have hd : digitsVal ['0'] = 0 := by decide
  have hd3 : digitsVal ['0', '5', '0'] = 50 := by decide
  rw [hstep, hd, hd3]
  norm_num

theorem decodeB_doubled : decodeB "r_vs_n_B0r_vs_n_B.csv" = some 0 := by
  have hdel : String.mk (delOcc patTail (delOcc patHead "r_vs_n_B0r_vs_n_B.csv".data)) =
      "0" := by decide
  rw [decodeB, hdel]
  have hstep : parsePyFloat "0" = some ((digitsVal ['0'] : ℚ)) := rfl
  have hd : digitsVal ['0'] = 0 := by decide
  rw [hstep, hd]
  norm_num

theorem load_fold_split (l : List (String × Table)) (rs : ResultSet) (ws : List String) :
    l.foldl loadStep (rs, ws) =
      ((l.filterMap (fun f => (decodeB f.1).map (fun b => (b, f.2)))).foldl
        (fun a p => upsert p.1 p.2 a) rs,
       ws ++ (l.filter (fun f => (decodeB f.1).isNone)).map (fun f => warnMsg f.1)) := by
  induction l generalizing rs ws with
  | nil => simp
  | cons f rest ih =>
    cases hd : decodeB f.1 with
    | none =>
      simp only [List.foldl_cons, loadStep, hd, List.filterMap_cons, List.filter_cons,
        Option.isNone_none, Option.map_none', ih, List.map_cons, List.append_assoc,
        List.singleton_append]
      simp [hd]
    | some b =>
      simp only [List.foldl_cons, loadStep, hd, List.filterMap_cons, List.filter_cons,
        Option.isNone_some, Option.map_some', ih, List.foldl_cons]
      simp [hd]

/-- C4 (amended): the loader keys each table by the float decoded from the
filename with **every** occurrence of the fixed pieces `r_vs_n_B` and
`.csv` deleted (Python `str.replace` semantics), not only the outer
prefix/suffix pair; a file whose residue fails to decode contributes a
warning and is skipped while the rest are still loaded.  On a directory
holding exactly the files `r_vs_n_B0.000.csv` and `r_vs_n_B0.050.csv`, the
key set is exactly `{0.000, 0.050}`. -/
theorem loader_decode_keys (files : List (String × Table))
    (hne : files.filter (fun f => matchesPat f.1) ≠ []) :
    loadCalibration files =
      some (loadedOf (sortFiles (files.filter (fun f => matchesPat f.1))),
            warnsOf (sortFiles (files.filter (fun f => matchesPat f.1)))) ∧
    ∀ t1 t2 : Table,
      loadCalibration [("r_vs_n_B0.000.csv", t1), ("r_vs_n_B0.050.csv", t2)] =
        some ([((0 : ℚ), t1), ((1 : ℚ) / 20, t2)], []) := by
  constructor
  · rw [loadCalibration]
    rw [if_neg (by simpa [List.isEmpty_iff] using hne)]
    rw [load_fold_split, loadedOf, warnsOf]
    simp
  · intro t1 t2
    have hm1 : matchesPat "r_vs_n_B0.000.csv" = true := by decide
    have hm2 : matchesPat "r_vs_n_B0.050.csv" = true := by decide
    have hlt : charListLtB "r_vs_n_B0.050.csv".data "r_vs_n_B0.000.csv".data = false := by
      decide
    rw [loadCalibration]
    simp only [List.filter_cons, hm1, hm2, List.filter_nil, if_true, List.isEmpty_cons,
      Bool.false_eq_true, reduceIte]
    rw [sortFiles]
    simp only [List.insertionSort, List.orderedInsert, hlt, if_true]
    simp only [List.foldl_cons, List.foldl_nil, loadStep, decodeB_f000, decodeB_f050]
    norm_num [upsert]

/-- Witness for C4 on the two-file directory of the spec's example. -/
theorem loader_decode_keys_witness :
    ([("r_vs_n_B0.000.csv", tEx), ("r_vs_n_B0.050.csv", tEx2)].filter
      (fun f => matchesPat f.1) ≠ []) ∧
    loadCalibration [("r_vs_n_B0.000.csv", tEx), ("r_vs_n_B0.050.csv", tEx2)] =
      some ([((0 : ℚ), tEx), ((1 : ℚ) / 20, tEx2)], []) :=
  ⟨by decide,
   (loader_decode_keys [("r_vs_n_B0.000.csv", tEx), ("r_vs_n_B0.050.csv", tEx2)]
     (by decide)).2 tEx tEx2⟩

/-- C4 counterexample: the filename `r_vs_n_B0r_vs_n_B.csv` has the middle
segment `0r_vs_n_B`, which fails to decode as a float — per the claim the
file should be skipped — yet the loader keys its table under `0.0`,
because `str.replace` also deletes the second, inner occurrence of the
fixed piece. -/
theorem loader_decode_counter :
    segDecode "r_vs_n_B0r_vs_n_B.csv" = none ∧
    loadCalibration [("r_vs_n_B0r_vs_n_B.csv", tEx)] = some ([((0 : ℚ), tEx)], []) := by
  constructor
  · decide
  · have hm : matchesPat "r_vs_n_B0r_vs_n_B.csv" = true := by decide
    rw [loadCalibration]
    simp only [List.filter_cons, hm, List.filter_nil, if_true, List.isEmpty_cons,
      Bool.false_eq_true, reduceIte]
    rw [sortFiles]
    simp only [List.insertionSort, List.orderedInsert]
    simp only [List.foldl_cons, List.foldl_nil, loadStep, decodeB_doubled]
    rfl

/-! ### Claim C9: the shaded low-load region -/

theorem lookupT_mem {k : ℚ} {l : ResultSet} {t : Table} (h : lookupT k l = some t) :
    (k, t) ∈ l := by
  induction l with
  | nil => simp [lookupT] at h
  | cons p rest ih =>
    rw [lookupT] at h
    by_cases hp : p.1 = k
    · simp only [hp, if_true, Option.some.injEq] at h
      have : (k, t) = p := by
        ext
        · exact hp.symm
        · exact h.symm
      exact this ▸ List.mem_cons_self p rest
    · simp only [hp, if_false] at h
      exact List.mem_cons_of_mem p (ih h)

theorem head_baseline (data : ResultSet) (df : Table)
    (hs : List.Sorted keyLe data) (hnn : ∀ p ∈ data, 0 ≤ p.1)
    (h0 : lookupT 0 data = some df) :
    ∃ rest, data = (0, df) :: rest := by
  cases data with
  | nil => simp [lookupT] at h0
  | cons p rest =>
    by_cases hp : p.1 = 0
    · rw [lookupT, if_pos hp] at h0
      refine ⟨rest, ?_⟩
      have : p = (0, df) := by
        ext
        · exact hp
        · exact Option.some.injEq .. ▸ h0
      rw [this]
    · rw [lookupT, if_neg hp] at h0
      have hmem : ((0 : ℚ), df) ∈ rest := lookupT_mem h0
      have hle : keyLe p (0, df) :=
        (List.pairwise_cons.mp hs).1 ((0 : ℚ), df) hmem
      have : p.1 = 0 :=
        le_antisymm hle (hnn p (List.mem_cons_self p rest))
      exact absurd this hp

/-- C9 (amended): the shaded low-load region of the comparison chart spans
from the minimum `N` of the **first** table in the ResultSet's iteration
order over 30% of that table's `N` range.  When the iteration order is
ascending by key, all keys are non-negative and the baseline key `0.0` is
present — as for any result set the loader builds from well-formed
calibration files — the first table is the baseline table, and the span
agrees with the spec's baseline-based description. -/
theorem lowload_span_baseline (data : ResultSet) (df : Table) (mn mx : ℚ)
    (hs : List.Sorted keyLe data) (hnn : ∀ p ∈ data, 0 ≤ p.1)
    (h0 : lookupT 0 data = some df)
    (hmn : colMin (df.rows.map (fun r => r.N)) = some mn)
    (hmx : colMax (df.rows.map (fun r => r.N)) = some mx) :
    (plot_r_vs_n_comparison data).span = some (mn, mn + (mx - mn) * (3 / 10)) ∧
    (plot_r_vs_n_comparison data).span = spanSpecC9 data := by
  obtain ⟨rest, rfl⟩ := head_baseline data df hs hnn h0
  constructor
  · simp [plot_r_vs_n_comparison, hmn, hmx]
  · simp [plot_r_vs_n_comparison, spanSpecC9, h0, hmn, hmx]

/-- Witness for C9 on a sorted two-table set with the baseline first. -/
theorem lowload_span_baseline_witness :
    (List.Sorted keyLe [((0 : ℚ), tEx2), ((5 : ℚ), tEx)] ∧
      lookupT 0 [((0 : ℚ), tEx2), ((5 : ℚ), tEx)] = some tEx2) ∧
    (plot_r_vs_n_comparison [((0 : ℚ), tEx2), ((5 : ℚ), tEx)]).span =
      some (10, 10 + (20 - 10) * (3 / 10)) :=
  ⟨⟨by decide, by decide⟩,
   (lowload_span_baseline [((0 : ℚ), tEx2), ((5 : ℚ), tEx)] tEx2 10 20
     (by decide) (by decide) (by decide) (by decide) (by decide)).1⟩

/-- C9 counterexample: on the non-empty ResultSet `{0.05 ↦ tEx2}` the
baseline table is absent, so the claim's baseline-derived span does not
exist, yet the chart still shades a region — computed from the first
table, spanning 10 to 13. -/
theorem lowload_span_counter :
    (plot_r_vs_n_comparison [((1 : ℚ) / 20, tEx2)]).span = some (10, 13) ∧
    spanSpecC9 [((1 : ℚ) / 20, tEx2)] = none := by
  constructor
  · simp only [plot_r_vs_n_comparison, tEx2, colMin, colMax, List.map_cons, List.map_nil,
      List.foldl_cons, List.foldl_nil]
    norm_num [min_def, max_def]
  · have h : lookupT 0 [((1 : ℚ) / 20, tEx2)] = none := by
      rw [lookupT, if_neg (by norm_num), lookupT]
    rw [spanSpecC9, h, Option.none_bind]

end MangoPlot
